import Mathlib

/-!
Verification of the step-execution core of a pipeline-step runner
(package `runtime`, file `step_executor.go`).

The Go code is embedded shallowly:

* pure value manipulation (`convertStatus`, the error aggregation in
  `executeStep`, `multierror.Append`) becomes pure Lean functions;
* each lock-guarded critical section of the `StepExecutor` becomes an
  explicit state-transition function on a `StepExecutor` state record
  (Go maps become association lists, Go channels become numeric channel
  identifiers, a send on a channel becomes an entry in a delivery list);
* the results of the external collaborators (`e.run`, `wc.Close`,
  `wc.Error`, `ctx.Err`) are inputs to the transition functions, so the
  theorems quantify over every behaviour of the environment.
-/

/-- Process exit state (`runtime.State` of drone's runner-go, as used by
this file: `Exited`, `ExitCode`, `OOMKilled`). -/
structure State where
  Exited : Bool
  ExitCode : Int
  OOMKilled : Bool
deriving DecidableEq

/-- Modelled from the spec: structured v2 outputs (`api.OutputV2`), an
opaque key/value record passed through the executor unchanged. -/
structure OutputV2 where
  Key : String
  Value : String
deriving DecidableEq

/-- Modelled from the spec: the telemetry payload
(`types.TelemetryData`), opaque to the executor. -/
structure TelemetryData where
  payload : String
deriving DecidableEq

/-- A non-aggregate Go error reachable in this file: a plain error
(`fmt.Errorf`, engine errors, writer errors), a request-validation
error (`errors.BadRequestError`), or one of the two context errors. -/
inductive BaseErr where
  | simple (msg : String)
  | badRequest (msg : String)
  | ctxCanceled
  | ctxDeadlineExceeded
deriving DecidableEq

/-- A Go `error` value as it occurs in this file: either a base error or
a `*multierror.Error` holding a list of causes.  `multierror.Append`
flattens nested `*Error` arguments, so the causes of an aggregate are
always base errors here. -/
inductive GoErr where
  | base (e : BaseErr)
  | multi (errs : List BaseErr)
deriving DecidableEq

/-- The cause list of an error, as `multierror.Append` flattens it. -/
def errToList : GoErr → List BaseErr
  | .base e => [e]
  | .multi l => l

/-- Cause list of a possibly-nil error (`nil` contributes nothing). -/
def errToListO : Option GoErr → List BaseErr
  | none => []
  | some e => errToList e

/-- `multierror.Append(a, b)` for a possibly-nil `a` and non-nil `b`:
always returns a non-nil `*Error` whose causes are `a`'s causes followed
by `b`'s. -/
def merrAppend (a : Option GoErr) (b : GoErr) : GoErr :=
  .multi (errToListO a ++ errToList b)

/-- The accumulator `result` of `executeStep` is a possibly-nil
`*multierror.Error`; `some l` is a non-nil `*Error` with cause list `l`
(possibly empty — `multierror.Append` never returns nil). -/
def merrAccAppend (r : Option (List BaseErr)) (e : Option GoErr) : Option (List BaseErr) :=
  some (r.getD [] ++ errToListO e)

/-- `Error()` of a base error. -/
def baseErrString : BaseErr → String
  | .simple m => m
  | .badRequest m => m
  | .ctxCanceled => "context canceled"
  | .ctxDeadlineExceeded => "context deadline exceeded"

/-- `multierror`'s default `ListFormatFunc`. -/
def multiErrString (es : List BaseErr) : String :=
  match es with
  | [e] => "1 error occurred:\n\t* " ++ baseErrString e ++ "\n\n"
  | _ =>
      toString es.length ++ " errors occurred:\n\t" ++
        String.intercalate "\n\t" (es.map (fun e => "* " ++ baseErrString e)) ++ "\n\n"

/-- `Error()` of a Go error value. -/
def errString : GoErr → String
  | .base e => baseErrString e
  | .multi l => multiErrString l

/-- `ExecutionStatus`: `NotStarted` is represented by the absence of a
status entry; the registry stores only `Running` or `Complete`. -/
inductive ExecutionStatus where
  | NotStarted
  | Running
  | Complete
deriving DecidableEq

/-- The per-identifier `StepStatus` record. -/
structure StepStatus where
  Status : ExecutionStatus
  State : Option State
  StepErr : Option GoErr
  Outputs : Option (List (String × String))
  Artifact : Option (List Nat)
  OutputV2 : Option (List OutputV2)
  OptimizationState : String
  Telemetry : Option TelemetryData
deriving DecidableEq

/-- `StepStatus{Status: Running}` — the entry inserted by `StartStep`,
with every other field at its zero value. -/
def runningStatus : StepStatus :=
  { Status := .Running, State := none, StepErr := none, Outputs := none,
    Artifact := none, OutputV2 := none, OptimizationState := "", Telemetry := none }

/-- The seven-tuple returned by `executeStep` / `e.run`:
(state, outputs, artifact, outputV2, optimizationState, telemetry, err). -/
structure RunResult where
  state : Option State
  outputs : Option (List (String × String))
  artifact : Option (List Nat)
  outputV2 : Option (List OutputV2)
  optimizationState : String
  telemetry : Option TelemetryData
  stepErr : Option GoErr
deriving DecidableEq

/-- The `Complete` record built by the `StartStep` goroutine from the
seven-tuple of `executeStep`. -/
def completeRecord (res : RunResult) : StepStatus :=
  { Status := .Complete, State := res.state, StepErr := res.stepErr,
    Outputs := res.outputs, Artifact := res.artifact, OutputV2 := res.outputV2,
    OptimizationState := res.optimizationState, Telemetry := res.telemetry }

/-- `api.PollStepResponse`, with its fields as `convertStatus` fills
them (`Error` is the rendered error string). -/
structure PollStepResponse where
  Exited : Bool
  ExitCode : Int
  OOMKilled : Bool
  Outputs : Option (List (String × String))
  Artifact : Option (List Nat)
  OutputV2 : Option (List OutputV2)
  OptimizationState : String
  Telemetry : Option TelemetryData
  Error : String
deriving DecidableEq

/-- `convertStatus`: builds the poll response from a stored status.
Exit defaults to exited; a non-nil process state overrides exit data and
synthesizes an oom-killed error, or else (not both) a nonzero-exit
error; a non-nil step error forces exit code 255. -/
def convertStatus (status : StepStatus) : PollStepResponse :=
  let r : PollStepResponse :=
    { Exited := true, ExitCode := 0, OOMKilled := false,
      Outputs := status.Outputs, Artifact := status.Artifact,
      OutputV2 := status.OutputV2, OptimizationState := status.OptimizationState,
      Telemetry := status.Telemetry, Error := "" }
  let stepErr := status.StepErr
  let p : PollStepResponse × Option GoErr :=
    match status.State with
    | none => (r, stepErr)
    | some st =>
        let r := { r with Exited := st.Exited, OOMKilled := st.OOMKilled,
                          ExitCode := st.ExitCode }
        if st.OOMKilled then
          (r, some (merrAppend stepErr (.base (.simple "oom killed"))))
        else if st.ExitCode ≠ 0 then
          (r, some (merrAppend stepErr (.base (.simple ("exit status " ++ toString st.ExitCode)))))
        else
          (r, stepErr)
  let r := p.1
  let stepErr := p.2
  let r := if status.StepErr ≠ none then { r with ExitCode := 255 } else r
  match stepErr with
  | some er => { r with Error := errString er }
  | none => r

/-! ### Go maps as association lists -/

/-- Lookup in a Go map modelled as an association list. -/
def alookup {α : Type} : List (String × α) → String → Option α
  | [], _ => none
  | (k', v) :: rest, k => if k' = k then some v else alookup rest k

/-- Insert/overwrite in a Go map modelled as an association list. -/
def ainsert {α : Type} : List (String × α) → String → α → List (String × α)
  | [], k, v => [(k, v)]
  | (k', v') :: rest, k, v =>
      if k' = k then (k, v) :: rest else (k', v') :: ainsert rest k v

theorem alookup_ainsert_self {α : Type} (m : List (String × α)) (k : String) (v : α) :
    alookup (ainsert m k v) k = some v := by
  induction m with
  | nil => simp [ainsert, alookup]
  | cons hd tl ih =>
      obtain ⟨k', v'⟩ := hd
      by_cases h : k' = k <;> simp [ainsert, alookup, h, ih]

theorem alookup_ainsert_ne {α : Type} (m : List (String × α)) (k k' : String) (v : α)
    (h : k ≠ k') : alookup (ainsert m k v) k' = alookup m k' := by
  induction m with
  | nil => simp [ainsert, alookup, h]
  | cons hd tl ih =>
      obtain ⟨k₀, v₀⟩ := hd
      by_cases h₀ : k₀ = k
      · subst h₀
        simp [ainsert, alookup, h]
      · simp [ainsert, alookup, h₀, ih]

/-! ### The executor state and its transitions -/

/-- Modelled from the spec: the Log Buffer (`StepLog`, whose
implementation file is outside the embedded sources) — accumulated
output, the set of active subscriber channels (as channel identifiers),
and the done flag tied to the run's cancellation scope. -/
structure StepLog where
  data : List String
  subscribers : List Nat
  done : Bool
deriving DecidableEq

/-- Modelled from the spec: `NewStepLog(ctx)` — a fresh, open, empty
Log Buffer. -/
def newStepLog : StepLog :=
  { data := [], subscribers := [], done := false }

/-- Modelled from the spec: `StepLog.Unsubscribe` removes a subscriber
channel; idempotent and safe after done. -/
def slUnsubscribe (sl : StepLog) (ch : Nat) : StepLog :=
  { sl with subscribers := sl.subscribers.filter (fun c => c ≠ ch) }

/-- The shared mutable state of the `StepExecutor`: the three registries
guarded by its mutex.  Channels are identified by naturals; a value sent
on a channel is recorded by the transition that performs the send. -/
structure StepExecutor where
  stepStatus : List (String × StepStatus)
  stepLog : List (String × StepLog)
  stepWaitCh : List (String × List Nat)
deriving DecidableEq

/-- The synchronous part of `StartStep` (its lock-guarded section): the
returned `Bool` records whether the background goroutine was launched
(the `go func` at the end of `StartStep`). -/
def StartStep (e : StepExecutor) (id : String) : StepExecutor × Option GoErr × Bool :=
  if id = "" then
    (e, some (.base (.badRequest "ID needs to be set")), false)
  else
    match alookup e.stepStatus id with
    | some _ => (e, none, false)
    | none =>
        ({ e with stepStatus := ainsert e.stepStatus id runningStatus }, none, true)

/-- The body of the `StartStep` goroutine after `executeStep` returns:
store the `Complete` record, snapshot the waiter channels under the
lock, then send the final status to each snapshotted channel.  The
returned list records the sends (channel, value), in order.  The
`stepWaitCh` registry is left untouched by the source. -/
def completeStep (e : StepExecutor) (id : String) (res : RunResult) :
    StepExecutor × List (Nat × StepStatus) :=
  let status := completeRecord res
  let channels := (alookup e.stepWaitCh id).getD []
  ({ e with stepStatus := ainsert e.stepStatus id status },
   channels.map (fun c => (c, status)))

/-- Outcome of the lock-guarded section of `PollStep`. -/
inductive PollAction where
  | errResp (err : GoErr)
  | immediate (resp : PollStepResponse)
  | registered (ch : Nat)
deriving DecidableEq

/-- The lock-guarded section of `PollStep`; `ch` is the fresh one-shot
channel `make(chan StepStatus, 1)` allocated by this call.  The waiter
registration is translated branch-for-branch from the source: when no
entry exists the fresh channel is appended to the (empty) list, and when
an entry already exists the list is replaced by `[ch]`. -/
def PollStep (e : StepExecutor) (id : String) (ch : Nat) : StepExecutor × PollAction :=
  if id = "" then
    (e, .errResp (.base (.badRequest "ID needs to be set")))
  else
    match alookup e.stepStatus id with
    | none => (e, .errResp (.base (.badRequest "Step has not started")))
    | some s =>
        if s.Status = .Complete then
          (e, .immediate (convertStatus s))
        else
          let waitCh :=
            match alookup e.stepWaitCh id with
            | none => ainsert e.stepWaitCh id (((alookup e.stepWaitCh id).getD []) ++ [ch])
            | some _ => ainsert e.stepWaitCh id [ch]
          ({ e with stepWaitCh := waitCh }, .registered ch)

/-- Outcome of a blocked `PollStep` caller at an observation point. -/
inductive PollWait where
  | stillBlocked
  | returned (resp : PollStepResponse)
deriving DecidableEq

/-- The post-registration wait of `PollStep` (`status := <-ch`): the
outcome is a function of the value delivered on the one-shot channel
alone.  The source contains no select on the caller's context, so the
flag recording whether that context is canceled cannot influence the
outcome; it is a parameter here precisely so that independence is a
statable property. -/
def pollAwait (delivered : Option StepStatus) (callerCtxCanceled : Bool) : PollWait :=
  match delivered, callerCtxCanceled with
  | some st, _ => .returned (convertStatus st)
  | none, _ => .stillBlocked

/-- The `StreamOutput` watcher goroutine firing on the caller's context
cancellation: it closes the data channel (the returned `Bool`) and
unsubscribes it from the step's Log Buffer.  It touches no other
registry. -/
def streamOnCallerCancel (e : StepExecutor) (id : String) (chData : Nat) :
    StepExecutor × Bool :=
  match alookup e.stepLog id with
  | some sl =>
      ({ e with stepLog := ainsert e.stepLog id (slUnsubscribe sl chData) }, true)
  | none => (e, true)

/-! ### The run paths -/

/-- `ctx.Err()` when it is non-nil: canceled or deadline exceeded. -/
inductive CtxErr where
  | canceled
  | deadlineExceeded
deriving DecidableEq

/-- The Go error value of a context error. -/
def ctxErrToGoErr : CtxErr → GoErr
  | .canceled => .base .ctxCanceled
  | .deadlineExceeded => .base .ctxDeadlineExceeded

/-- One behaviour of the environment of a run: what `e.run` returns,
what `ctx.Err()` reads after the run, and the close result and retained
write error of the livelog writer. -/
structure RunEnv where
  runRes : RunResult
  ctxErr : Option CtxErr
  closeErr : Option GoErr
  wcErr : Option GoErr
deriving DecidableEq

/-- `StepKind` (`api.Run`, `api.RunTestsV2`, anything else). -/
inductive StepKind where
  | Run
  | RunTestsV2
  | RunTestStep
deriving DecidableEq

/-- The fields of `api.StartStepRequest` this file reads. -/
structure StartStepRequest where
  ID : String
  Name : String
  Kind : StepKind
  Timeout : Int
  Detach : Bool
  LogDrone : Bool
deriving DecidableEq

/-- `runStep` inside `executeStepDrone`, after `e.run` returns: a
canceled or deadline-exceeded context wins, then a run error, else the
exit state. -/
def droneRunStep (env : RunEnv) : Option State × Option GoErr :=
  match env.ctxErr with
  | some ce => (none, some (ctxErrToGoErr ce))
  | none =>
      match env.runRes.stepErr with
      | some er => (none, some er)
      | none => (env.runRes.state, none)

/-- `executeStepDrone`: registers the fresh Log Buffer in the `stepLog`
registry, then either detaches (immediately reporting not-exited) or
runs synchronously. -/
def executeStepDrone (e : StepExecutor) (r : StartStepRequest) (env : RunEnv) :
    StepExecutor × (Option State × Option GoErr) :=
  let e' := { e with stepLog := ainsert e.stepLog r.ID newStepLog }
  if r.Detach then
    (e', (some { Exited := false, ExitCode := 0, OOMKilled := false }, none))
  else
    (e', droneRunStep env)

/-- The synchronous tail of `executeStep` on the primary path (after the
drone and detach branches): aggregate the run error and the writer close
error with `multierror.Append`; a canceled or deadline-exceeded context
then preempts everything, returning only the telemetry and the context
error; otherwise a nonzero exit with a retained writer error appends the
close result once more, and the run's seven-tuple is returned with the
aggregate. -/
def executeStepSyncTail (env : RunEnv) : RunResult :=
  let result : Option (List BaseErr) :=
    match env.runRes.stepErr with
    | some er => merrAccAppend none (some er)
    | none => none
  let result :=
    match env.closeErr with
    | some er => merrAccAppend result (some er)
    | none => result
  match env.ctxErr with
  | some ce =>
      { state := none, outputs := none, artifact := none, outputV2 := none,
        optimizationState := "", telemetry := env.runRes.telemetry,
        stepErr := some (ctxErrToGoErr ce) }
  | none =>
      let result :=
        match env.runRes.state with
        | some st =>
            if st.ExitCode ≠ 0 ∧ env.wcErr ≠ none then
              merrAccAppend result env.closeErr
            else result
        | none => result
      { env.runRes with stepErr := result.map .multi }

/-- `executeStep`: the drone path registers the Log Buffer and runs the
drone variant; the primary path with `Detach` reports not-exited
immediately; otherwise the synchronous tail runs.  Neither primary
branch touches any registry. -/
def executeStep (e : StepExecutor) (r : StartStepRequest) (env : RunEnv) :
    StepExecutor × RunResult :=
  if r.LogDrone then
    let p := executeStepDrone e r env
    (p.1, { state := p.2.1, outputs := none, artifact := none, outputV2 := none,
            optimizationState := "", telemetry := none, stepErr := p.2.2 })
  else if r.Detach then
    (e, { state := some { Exited := false, ExitCode := 0, OOMKilled := false },
          outputs := none, artifact := none, outputV2 := none,
          optimizationState := "", telemetry := none, stepErr := none })
  else
    (e, executeStepSyncTail env)

/-! ### Concrete inputs shared by witnesses and counterexamples -/

/-- A run result with every field at its zero value. -/
def emptyRunResult : RunResult :=
  { state := none, outputs := none, artifact := none, outputV2 := none,
    optimizationState := "", telemetry := none, stepErr := none }

/-- An environment in which everything succeeds. -/
def emptyEnv : RunEnv :=
  { runRes := emptyRunResult, ctxErr := none, closeErr := none, wcErr := none }

/-- A primary-path (non-drone, non-detach) request. -/
def reqPrimary : StartStepRequest :=
  { ID := "s1", Name := "step", Kind := .Run, Timeout := 0,
    Detach := false, LogDrone := false }

/-- An executor state holding a single `Running` entry for `"s1"`. -/
def runningS1 : StepExecutor :=
  { stepStatus := [("s1", runningStatus)], stepLog := [], stepWaitCh := [] }

/-! ### C1 -/

/-- C1: the claim states that each concurrent `PollStep` caller's fresh
one-shot channel is appended to the existing waiter list, never
replacing it, so that on completion all waiters are delivered the final
status.  The code does the opposite when a waiter entry already exists:
with a `Running` entry for `"s1"`, a first poller registers channel 0,
a second poller then registers channel 1 and the waiter list becomes
`[1]`, not `[0, 1]`; completion therefore sends the final status only to
channel 1, and the earlier waiter on channel 0 is starved. -/
theorem C1_waiters_replaced_code_bug :
    alookup (PollStep (PollStep runningS1 "s1" 0).1 "s1" 1).1.stepWaitCh "s1" = some [1] ∧
    (completeStep (PollStep (PollStep runningS1 "s1" 0).1 "s1" 1).1 "s1" emptyRunResult).2 =
      [(1, completeRecord emptyRunResult)] := by
  decide

/-! ### C2 -/

/-- C2: starting a step is idempotent per identifier.  A `StartStep`
that finds an existing status entry returns success with no goroutine
launched and leaves the state untouched; a first `StartStep` on a fresh
identifier launches the run, installs the `Running` entry, and any
second call is then exactly such a no-op. -/
theorem C2_start_idempotent (e : StepExecutor) (id : String) (hid : id ≠ "") :
    (∀ st, alookup e.stepStatus id = some st → StartStep e id = (e, none, false)) ∧
    (alookup e.stepStatus id = none →
      alookup (StartStep e id).1.stepStatus id = some runningStatus ∧
      (StartStep e id).2.1 = none ∧ (StartStep e id).2.2 = true ∧
      StartStep (StartStep e id).1 id = ((StartStep e id).1, none, false)) := by
  constructor
  · intro st h
    simp [StartStep, hid, h]
  · intro h
    simp [StartStep, hid, h, alookup_ainsert_self]

/-- Witness for C2 at the empty executor and identifier `"s1"`. -/
theorem C2_start_idempotent_witness :
    StartStep (StartStep ⟨[], [], []⟩ "s1").1 "s1" =
      ((StartStep ⟨[], [], []⟩ "s1").1, none, false) :=
  ((C2_start_idempotent ⟨[], [], []⟩ "s1" (by decide)).2 rfl).2.2.2

/-! ### C7 -/

/-- C7: a poll on a `Complete` entry returns the converted response
immediately, registers no waiter and leaves the state unchanged, and a
subsequent poll on the same identifier returns the same response. -/
theorem C7_poll_complete_idempotent (e : StepExecutor) (id : String) (st : StepStatus)
    (ch ch2 : Nat) (hid : id ≠ "") (h : alookup e.stepStatus id = some st)
    (hc : st.Status = .Complete) :
    PollStep e id ch = (e, .immediate (convertStatus st)) ∧
    PollStep (PollStep e id ch).1 id ch2 = (e, .immediate (convertStatus st)) := by
  have h1 : ∀ c, PollStep e id c = (e, .immediate (convertStatus st)) := by
    intro c
    simp [PollStep, hid, h, hc]
  have h2 : (PollStep e id ch).1 = e := by rw [h1 ch]
  rw [h2]
  exact ⟨h1 ch, h1 ch2⟩

/-- Witness for C7 at a concrete `Complete` entry. -/
theorem C7_poll_complete_witness :
    PollStep ⟨[("s1", completeRecord emptyRunResult)], [], []⟩ "s1" 0 =
      (⟨[("s1", completeRecord emptyRunResult)], [], []⟩,
        .immediate (convertStatus (completeRecord emptyRunResult))) :=
  (C7_poll_complete_idempotent _ "s1" (completeRecord emptyRunResult) 0 1
    (by decide) (by decide) rfl).1

/-! ### C8 -/

/-- C8 (counterexample): the claim states that after completion the
waiter list for the identifier is cleared (entry removed or emptied).
With channel 0 registered as a waiter for `"s1"`, completion delivers to
it but the `stepWaitCh` entry still holds `[0]` afterwards — the source
never deletes or empties it. -/
theorem C8_waiters_not_cleared_counterexample :
    alookup (completeStep
        ⟨[("s1", runningStatus)], [], [("s1", [0])]⟩ "s1" emptyRunResult).1.stepWaitCh "s1"
      = some [0] := by
  decide

/-- C8 (amended): on completion the status entry is replaced by the
`Complete` record and every channel registered as a waiter for that
identifier is sent the final status exactly once (the delivery list is
exactly the registered channels, each paired with the final status, in
registration order); the waiter list, however, is left in the registry
unchanged — it is not cleared — and the log registry is untouched. -/
theorem C8_complete_delivery_no_clear (e : StepExecutor) (id : String) (res : RunResult) :
    alookup (completeStep e id res).1.stepStatus id = some (completeRecord res) ∧
    (completeStep e id res).2 =
      ((alookup e.stepWaitCh id).getD []).map (fun c => (c, completeRecord res)) ∧
    (completeStep e id res).1.stepWaitCh = e.stepWaitCh ∧
    (completeStep e id res).1.stepLog = e.stepLog := by
  refine ⟨?_, rfl, rfl, rfl⟩
  simp [completeStep, alookup_ainsert_self]

/-! ### C3 -/

/-- C3: on the primary (non-drone, non-detach) path, whenever the run's
cancellation context ends canceled or deadline-exceeded, the step's
reported terminal error is exactly that context error, whatever the
run's own error, the writer's close error, the retained writer error and
the process exit state were — and the run touches no registry. -/
theorem C3_ctx_error_precedence (e : StepExecutor) (r : StartStepRequest) (env : RunEnv)
    (ce : CtxErr) (hdrone : r.LogDrone = false) (hdetach : r.Detach = false)
    (hctx : env.ctxErr = some ce) :
    (executeStep e r env).2.stepErr = some (ctxErrToGoErr ce) ∧
    (executeStep e r env).1 = e := by
  unfold executeStep executeStepSyncTail
  simp [hdrone, hdetach, hctx]

/-- Witness for C3: a deadline-exceeded run with a run error, a close
error, a retained writer error and an exited process still reports the
context error. -/
theorem C3_ctx_error_precedence_witness :
    (executeStep runningS1 reqPrimary
        { runRes := { emptyRunResult with
            state := some { Exited := true, ExitCode := 0, OOMKilled := false },
            stepErr := some (.base (.simple "run failed")) },
          ctxErr := some .deadlineExceeded,
          closeErr := some (.base (.simple "close failed")),
          wcErr := some (.base (.simple "write failed")) }).2.stepErr
      = some (ctxErrToGoErr .deadlineExceeded) :=
  (C3_ctx_error_precedence runningS1 reqPrimary _ .deadlineExceeded rfl rfl rfl).1

/-! ### C4 -/

/-- C4: on the primary synchronous path with no timeout, when both the
run and the writer close fail, the reported error is a single aggregiate
`multierror` whose cause list starts with the run error's causes
followed by the close error's causes; at most the close error's causes
are repeated after them (when a nonzero exit coincides with a retained
writer error), so neither error overwrites or discards the other. -/
theorem C4_run_and_close_errors_aggregated (env : RunEnv) (er ec : GoErr)
    (hrun : env.runRes.stepErr = some er) (hclose : env.closeErr = some ec)
    (hctx : env.ctxErr = none) :
    ∃ rest, (executeStepSyncTail env).stepErr =
        some (.multi (errToList er ++ errToList ec ++ rest)) ∧
      (rest = [] ∨ rest = errToList ec) := by
  unfold executeStepSyncTail
  simp [hrun, hclose, hctx, merrAccAppend, errToListO]
  cases hst : env.runRes.state with
  | none => exact ⟨[], by simp, Or.inl rfl⟩
  | some st =>
      by_cases hcond : st.ExitCode ≠ 0 ∧ env.wcErr ≠ none
      · exact ⟨errToList ec, by simp [hcond, merrAccAppend, errToListO, hclose], Or.inr rfl⟩
      · exact ⟨[], by simp [hcond], Or.inl rfl⟩

/-- Witness for C4: a failed run plus a failed close, no timeout. -/
theorem C4_run_and_close_errors_aggregated_witness :
    ∃ rest, (executeStepSyncTail
        { runRes := { emptyRunResult with stepErr := some (.base (.simple "run failed")) },
          ctxErr := none,
          closeErr := some (.base (.simple "close failed")),
          wcErr := none }).stepErr =
        some (.multi (errToList (.base (.simple "run failed")) ++
          errToList (.base (.simple "close failed")) ++ rest)) ∧
      (rest = [] ∨ rest = errToList (.base (.simple "close failed"))) :=
  C4_run_and_close_errors_aggregated _ _ _ rfl rfl rfl

/-! ### C5 -/

/-- C5 (counterexample): the claim states that a `PollStep` caller whose
own context is canceled while the step is still running stops waiting.
The source's wait is `status := <-ch` with no select on the caller's
context, so with no value delivered and the caller's context canceled
the poller is still blocked. -/
theorem C5_poll_ignores_caller_cancel_counterexample :
    pollAwait none true = .stillBlocked := by
  decide

/-- C5 (amended): a `StreamOutput` caller's own cancellation closes the
live channel and unsubscribes it from the step's Log Buffer, leaving the
status and waiter registries (and hence the underlying run) untouched;
a `PollStep` caller's context, by contrast, is ignored entirely — the
wait's outcome depends only on the delivered value, and an undelivered
poller remains blocked even when its context is canceled.  Neither
observer cancels the underlying step run. -/
theorem C5_observer_cancellation_independent (e : StepExecutor) (id : String) (ch : Nat)
    (d : Option StepStatus) (c : Bool) (sl : StepLog) :
    (streamOnCallerCancel e id ch).2 = true ∧
    (streamOnCallerCancel e id ch).1.stepStatus = e.stepStatus ∧
    (streamOnCallerCancel e id ch).1.stepWaitCh = e.stepWaitCh ∧
    ((slUnsubscribe sl ch).subscribers.contains ch) = false ∧
    pollAwait d c = pollAwait d false ∧
    pollAwait none c = .stillBlocked := by
  refine ⟨?_, ?_, ?_, ?_, ?_, ?_⟩
  · cases h : alookup e.stepLog id <;> simp [streamOnCallerCancel, h]
  · cases h : alookup e.stepLog id <;> simp [streamOnCallerCancel, h]
  · cases h : alookup e.stepLog id <;> simp [streamOnCallerCancel, h]
  · simp [slUnsubscribe]
  · cases d <;> rfl
  · rfl

/-! ### C6 -/

/-- C6 (counterexample): the claim states that every run that begins
registers a Log Buffer for its identifier in the `stepLog` registry.  On
the primary (non-drone) path no Log Buffer is ever registered: starting
`"s1"` fresh launches the run, yet after `executeStep` the `stepLog`
registry still has no entry for `"s1"`, so `StreamOutput` cannot find
one. -/
theorem C6_no_steplog_on_primary_counterexample :
    (StartStep ⟨[], [], []⟩ "s1").2.2 = true ∧
    alookup (executeStep (StartStep ⟨[], [], []⟩ "s1").1 reqPrimary emptyEnv).1.stepLog "s1"
      = none := by
  decide

/-- C6 (amended): a Log Buffer is created and registered only on the
legacy drone path — after `executeStep`, the `stepLog` registry has a
fresh Log Buffer under the request's identifier exactly when `LogDrone`
is set, and is unchanged there otherwise; the status and waiter
registries are untouched by either path. -/
theorem C6_steplog_registered_iff_drone (e : StepExecutor) (r : StartStepRequest)
    (env : RunEnv) :
    alookup (executeStep e r env).1.stepLog r.ID =
      (if r.LogDrone then some newStepLog else alookup e.stepLog r.ID) ∧
    (executeStep e r env).1.stepStatus = e.stepStatus ∧
    (executeStep e r env).1.stepWaitCh = e.stepWaitCh := by
  unfold executeStep executeStepDrone
  by_cases hd : r.LogDrone <;> by_cases hdet : r.Detach <;>
    simp [hd, hdet, alookup_ainsert_self]

/-! ### C9 -/

/-- A process state that is both OOM-killed and has a nonzero exit code. -/
def oomBothState : State := { Exited := true, ExitCode := 137, OOMKilled := true }

/-- A `Complete` status whose process state is `oomBothState`. -/
def oomBothStatus : StepStatus :=
  { runningStatus with Status := .Complete, State := some oomBothState }

/-- C9 (counterexample): the claim states that a state that is both
OOM-killed and nonzero-exit contributes both descriptive errors to the
response's error text.  For such a state the response's error text is
the single-cause "oom killed" aggregate, identical to what the same
status with exit code 0 produces — the nonzero exit contributes
nothing. -/
theorem C9_oom_only_counterexample :
    (convertStatus oomBothStatus).Error = "1 error occurred:\n\t* oom killed\n\n" ∧
    (convertStatus oomBothStatus).Error =
      (convertStatus { oomBothStatus with
        State := some { oomBothState with ExitCode := 0 } }).Error := by
  decide

/-- C9 (amended): for a stored status with a non-nil process state, the
OOM-killed and nonzero-exit descriptive errors are synthesized mutually
exclusively, OOM-kill taking precedence: an OOM-killed state appends
only "oom killed" to any existing step error (whatever the exit code),
and a non-OOM state with nonzero exit code appends only the
"exit status N" error. -/
theorem C9_oom_and_exit_mutually_exclusive (status : StepStatus) (st : State)
    (h : status.State = some st) :
    (st.OOMKilled = true →
      (convertStatus status).Error =
        errString (merrAppend status.StepErr (.base (.simple "oom killed")))) ∧
    (st.OOMKilled = false → st.ExitCode ≠ 0 →
      (convertStatus status).Error =
        errString (merrAppend status.StepErr
          (.base (.simple ("exit status " ++ toString st.ExitCode))))) := by
  constructor
  · intro hoom
    simp [convertStatus, h, hoom]
  · intro hoom hexit
    simp [convertStatus, h, hoom, hexit]

/-- Witness for C9 (amended) at `oomBothStatus`. -/
theorem C9_oom_and_exit_mutually_exclusive_witness :
    (convertStatus oomBothStatus).Error =
      errString (merrAppend oomBothStatus.StepErr (.base (.simple "oom killed"))) :=
  (C9_oom_and_exit_mutually_exclusive oomBothStatus oomBothState rfl).1 rfl

/-! ### C10 -/

/-- C10: on the primary (non-drone, non-detach) path, when the run's
context ends canceled or deadline-exceeded, the stored result has nil
process state, nil outputs, nil artifact and nil v2 outputs but retains
the collected telemetry, and the poll response converted from the stored
`Complete` record reports `Exited = true` (the default with no process
state), exit code 255 and the context error's text. -/
theorem C10_timeout_response_sentinel (e : StepExecutor) (r : StartStepRequest)
    (env : RunEnv) (ce : CtxErr)
    (hdrone : r.LogDrone = false) (hdetach : r.Detach = false)
    (hctx : env.ctxErr = some ce) :
    (executeStep e r env).2.state = none ∧
    (executeStep e r env).2.outputs = none ∧
    (executeStep e r env).2.artifact = none ∧
    (executeStep e r env).2.outputV2 = none ∧
    (executeStep e r env).2.telemetry = env.runRes.telemetry ∧
    (convertStatus (completeRecord (executeStep e r env).2)).Exited = true ∧
    (convertStatus (completeRecord (executeStep e r env).2)).ExitCode = 255 ∧
    (convertStatus (completeRecord (executeStep e r env).2)).Error =
      errString (ctxErrToGoErr ce) := by
  have hexec : (executeStep e r env).2 =
      { state := none, outputs := none, artifact := none, outputV2 := none,
        optimizationState := "", telemetry := env.runRes.telemetry,
        stepErr := some (ctxErrToGoErr ce) } := by
    unfold executeStep executeStepSyncTail
    simp [hdrone, hdetach, hctx]
  rw [hexec]
  refine ⟨rfl, rfl, rfl, rfl, rfl, ?_, ?_, ?_⟩ <;>
    simp [convertStatus, completeRecord]

/-- An environment whose context ended deadline-exceeded, with some
telemetry collected. -/
def envTimeout : RunEnv :=
  { emptyEnv with
    runRes := { emptyRunResult with telemetry := some { payload := "t" } },
    ctxErr := some .deadlineExceeded }

/-- Witness for C10 at a concrete timed-out run. -/
theorem C10_timeout_response_sentinel_witness :
    (executeStep runningS1 reqPrimary envTimeout).2.state = none ∧
    (executeStep runningS1 reqPrimary envTimeout).2.outputs = none ∧
    (executeStep runningS1 reqPrimary envTimeout).2.artifact = none ∧
    (executeStep runningS1 reqPrimary envTimeout).2.outputV2 = none ∧
    (executeStep runningS1 reqPrimary envTimeout).2.telemetry = envTimeout.runRes.telemetry ∧
    (convertStatus (completeRecord (executeStep runningS1 reqPrimary envTimeout).2)).Exited = true ∧
    (convertStatus (completeRecord (executeStep runningS1 reqPrimary envTimeout).2)).ExitCode = 255 ∧
    (convertStatus (completeRecord (executeStep runningS1 reqPrimary envTimeout).2)).Error =
      errString (ctxErrToGoErr .deadlineExceeded) :=
  C10_timeout_response_sentinel runningS1 reqPrimary envTimeout .deadlineExceeded rfl rfl rfl
